import Mathlib

/-!
Shallow embedding of the der-pipeline repository.

The repository batch-processes audio recordings through a speaker-diarization
model and scores the output against ground truth.  We embed the pure logic of
`src/main.py` (ground-truth loading and the per-recording batch loop),
`src/diagnostics.py` (the diagnostics computation and the problem classifier)
and `src/analyze_result.py` (the summary pass over the report table).

External effects (HTTP downloads, the pretrained diarization model, RTTM
writing, file reading, and the DER metric library) are modelled as oracle
fields of a `PipelineEnv` record; fallible calls return `Except String`.
Python floats are modelled as rationals, so the float literals 0.2, 0.3, 0.4
of the source become the exact rationals 1/5, 3/10, 2/5.
-/

/-- A pyannote `Segment`: a time interval with a start and an end.
The source field names are `start` and `end`; `end` is a Lean keyword, so the
second field is called `stop` here. -/
structure Seg where
  start : ℚ
  stop : ℚ
  deriving DecidableEq, Repr

/-- One entry of the transcript JSON: `{"start_time": float, "end_time": float,
"speaker_id": string}` (src/main.py, `load_ground_truth`). -/
structure TranscriptEntry where
  start_time : ℚ
  end_time : ℚ
  speaker_id : String
  deriving DecidableEq, Repr

/-- pyannote `Annotation.__setitem__` for the default track:
`annotation[segment] = label`.  The pyannote `Annotation` keeps a mapping from
segments to track labels, so we model it as an association list keyed by the
segment.  `__setitem__` first drops empty segments (`if not segment: return`,
where a `Segment` is falsy when its duration is not positive), and otherwise
stores `label` under the key `segment`, overwriting any label previously
stored under an equal segment. -/
def annotationSet (ann : List (Seg × String)) (seg : Seg) (label : String) :
    List (Seg × String) :=
  if seg.stop ≤ seg.start then ann
  else if seg ∈ ann.map Prod.fst then
    ann.map (fun p => if p.1 = seg then (seg, label) else p)
  else ann ++ [(seg, label)]

/-- The `Segment(start, end)` built from a transcript entry in
`load_ground_truth` (src/main.py). -/
def entrySeg (e : TranscriptEntry) : Seg := ⟨e.start_time, e.end_time⟩

/-- The body of the loop of `load_ground_truth` (src/main.py): for an entry
with `end > start`, assign `annotation[Segment(start, end)] = seg["speaker_id"]`;
otherwise leave the annotation unchanged. -/
def loadStep (ann : List (Seg × String)) (seg : TranscriptEntry) :
    List (Seg × String) :=
  if seg.end_time > seg.start_time then
    annotationSet ann (entrySeg seg) seg.speaker_id
  else ann

/-- `load_ground_truth` (src/main.py): start from an empty annotation and run
`loadStep` over the transcript entries.  The JSON parsing and file I/O are
outside the embedding; the function takes the already-decoded entry list. -/
def load_ground_truth (data : List TranscriptEntry) : List (Seg × String) :=
  data.foldl loadStep []

/-- The total duration of the timeline of an annotation:
`sum(seg.duration for seg in annotation.get_timeline())`.  `get_timeline`
yields the distinct segments of the annotation (they are the keys of its
track mapping), and `Segment.duration` is `end - start`. -/
def timelineDuration (ann : List (Seg × String)) : ℚ :=
  ((ann.map Prod.fst).dedup.map (fun s => s.stop - s.start)).sum

/-- The number of distinct speaker labels of an annotation:
`len(set(annotation.labels()))`. -/
def labelCount (ann : List (Seg × String)) : Nat :=
  (ann.map Prod.snd).dedup.length

/-- The dictionary returned by `analyze_diarization` (src/diagnostics.py). -/
structure DiagRecord where
  audio_duration : ℚ
  ref_speech_duration : ℚ
  hyp_speech_duration : ℚ
  missing_speech_seconds : ℚ
  missing_speech_pct : ℚ
  speakers_detected : Nat
  speakers_expected : Nat
  deriving DecidableEq, Repr

/-- `analyze_diarization` (src/diagnostics.py).  The audio duration comes from
`librosa.get_duration`, an external call, and is passed in as an oracle
value. -/
def analyze_diarization (audio_duration : ℚ)
    (reference hypothesis : List (Seg × String)) : DiagRecord :=
  let ref_duration := timelineDuration reference
  let hyp_duration := timelineDuration hypothesis
  let missing_speech := ref_duration - hyp_duration
  let missing_pct := if ref_duration > 0 then missing_speech / ref_duration * 100 else 0
  { audio_duration := audio_duration
    ref_speech_duration := ref_duration
    hyp_speech_duration := hyp_duration
    missing_speech_seconds := missing_speech
    missing_speech_pct := missing_pct
    speakers_detected := labelCount hypothesis
    speakers_expected := labelCount reference }

/-- The part of a result record read by `identify_problem_type`
(src/diagnostics.py): `result["DER"]` is accessed unconditionally, while the
three components are read with `result.get(key, 0)`, so they are optional and
default to 0. -/
structure ClassifierInput where
  DER : ℚ
  false_alarm : Option ℚ
  missed_detection : Option ℚ
  confusion : Option ℚ
  deriving DecidableEq, Repr

/-- `identify_problem_type` (src/diagnostics.py): the rule cascade classifying
a scored recording.  Thresholds 0.2, 0.3, 0.4 are the rationals 1/5, 3/10,
2/5. -/
def identify_problem_type (result : ClassifierInput) : String :=
  let fa := result.false_alarm.getD 0
  let md := result.missed_detection.getD 0
  let conf := result.confusion.getD 0
  if result.DER < 1/5 then "GOOD"
  else if fa > 3/10 then "HIGH_FALSE_ALARM"
  else if conf > 2/5 then "HIGH_CONFUSION"
  else if md > 3/10 then "HIGH_MISSED_DETECTION"
  else if fa > md ∧ fa > conf then "FALSE_ALARM_DOMINANT"
  else if conf > fa ∧ conf > md then "CONFUSION_DOMINANT"
  else "MIXED_ISSUES"

/-- One row of the input table `data.csv` (src/main.py). -/
structure InputRow where
  rec_id : String
  rec_url : String
  transcript_url : String
  deriving DecidableEq, Repr

/-- The dictionary returned by the detailed DER metric call
`der_metric(reference, hypothesis, detailed=True)`.  The key
`"diarization error rate"` is read with `metrics[...]` and is always present
when the call succeeds; the component keys are read with
`metrics.get(key, 0)`, so they are optional and default to 0. -/
structure DetailedMetrics where
  diarization_error_rate : ℚ
  false_alarm : Option ℚ
  missed_detection : Option ℚ
  confusion : Option ℚ
  deriving DecidableEq, Repr

/-- One result record appended to `results` in the batch loop of `main`
(src/main.py).  The Python code appends dictionaries with different key sets;
keys absent from a given record are `none` here (they surface as missing
values in the report table). -/
structure ResultRecord where
  rec_id : String
  DER : Option ℚ
  false_alarm : Option ℚ
  missed_detection : Option ℚ
  confusion : Option ℚ
  diarization_file : Option String
  status : String
  error : Option String
  deriving DecidableEq, Repr

/-- The external collaborators of the batch loop in `main` (src/main.py),
modelled as oracles.  `downloadAudio` and `downloadTranscript` are the two
`download_file` calls (the source function returns a bool, `True` on
success); `diarize` is `pipeline(audio_path).speaker_diarization`;
`writeRTTM` tells whether `hypothesis.write_rttm(f)` succeeds (its failure is
caught locally and only nulls the saved path); `readTranscript` is the file
read plus JSON decode feeding `load_ground_truth`; `derDetailed` and
`derAggregate` are the two `der_metric` calls, which may raise. -/
structure PipelineEnv where
  downloadAudio : InputRow → Bool
  downloadTranscript : InputRow → Bool
  diarize : InputRow → Except String (List (Seg × String))
  writeRTTM : InputRow → List (Seg × String) → Bool
  readTranscript : InputRow → Except String (List TranscriptEntry)
  derDetailed : List (Seg × String) → List (Seg × String) →
    Except String DetailedMetrics
  derAggregate : List (Seg × String) → List (Seg × String) → Except String ℚ

/-- One iteration of the batch loop of `main` (src/main.py): the body of
`for _, row in df.iterrows()`, producing the single result record appended
for that row.  The outer `try` covers diarization, the reference load and the
metric computation; the RTTM write has its own inner `try` that only resets
`diar_path` to `None`; the metric computation has an inner `try` that falls
back to the aggregate metric with zero components. -/
def processRow (env : PipelineEnv) (row : InputRow) : ResultRecord :=
  if ¬ env.downloadAudio row then
    { rec_id := row.rec_id, DER := none, false_alarm := none,
      missed_detection := none, confusion := none, diarization_file := none,
      status := "download_failed", error := none }
  else if ¬ env.downloadTranscript row then
    { rec_id := row.rec_id, DER := none, false_alarm := none,
      missed_detection := none, confusion := none, diarization_file := none,
      status := "download_failed", error := none }
  else
    match env.diarize row with
    | Except.error e =>
      { rec_id := row.rec_id, DER := none, false_alarm := none,
        missed_detection := none, confusion := none, diarization_file := none,
        status := "failed", error := some e }
    | Except.ok hypothesis =>
      let diar_path : Option String :=
        if env.writeRTTM row hypothesis then
          some ("data/diarization/" ++ row.rec_id ++ ".rttm")
        else none
      match env.readTranscript row with
      | Except.error e =>
        { rec_id := row.rec_id, DER := none, false_alarm := none,
          missed_detection := none, confusion := none,
          diarization_file := none, status := "failed", error := some e }
      | Except.ok data =>
        let reference := load_ground_truth data
        match env.derDetailed reference hypothesis with
        | Except.ok metrics =>
          { rec_id := row.rec_id,
            DER := some metrics.diarization_error_rate,
            false_alarm := some (metrics.false_alarm.getD 0),
            missed_detection := some (metrics.missed_detection.getD 0),
            confusion := some (metrics.confusion.getD 0),
            diarization_file := diar_path, status := "success", error := none }
        | Except.error _ =>
          match env.derAggregate reference hypothesis with
          | Except.error e =>
            { rec_id := row.rec_id, DER := none, false_alarm := none,
              missed_detection := none, confusion := none,
              diarization_file := none, status := "failed", error := some e }
          | Except.ok der =>
            { rec_id := row.rec_id, DER := some der, false_alarm := some 0,
              missed_detection := some 0, confusion := some 0,
              diarization_file := diar_path, status := "success",
              error := none }

/-- The whole batch loop of `main` (src/main.py): `results = []` followed by
one `results.append(...)` per input row. -/
def processBatch (env : PipelineEnv) (rows : List InputRow) : List ResultRecord :=
  rows.foldl (fun results row => results ++ [processRow env row]) []

/-- One row of the report CSV as read back by `analyze_report`
(src/analyze_result.py).  Only the columns the summary pass reads are
modelled. -/
structure ReportRow where
  rec_id : String
  status : String
  DER : ℚ
  false_alarm : ℚ
  missed_detection : ℚ
  confusion : ℚ
  missing_speech_pct : ℚ
  deriving DecidableEq, Repr

/-- pandas `Series.mean`: the arithmetic mean of a list of values. -/
def listMean (xs : List ℚ) : ℚ := xs.sum / xs.length

/-- pandas `Series.median`: sort the values; the middle value for an odd
count, the average of the two middle values for an even count. -/
def listMedian (xs : List ℚ) : ℚ :=
  let s := xs.mergeSort (fun a b => a ≤ b)
  if s.length % 2 = 1 then s.getD (s.length / 2) 0
  else (s.getD (s.length / 2 - 1) 0 + s.getD (s.length / 2) 0) / 2

/-- pandas `Series.min` on a nonempty list (0 on an empty one, a case the
caller guards away). -/
def listMin (xs : List ℚ) : ℚ :=
  match xs with
  | [] => 0
  | x :: rest => rest.foldl min x

/-- pandas `Series.max` on a nonempty list (0 on an empty one, a case the
caller guards away). -/
def listMax (xs : List ℚ) : ℚ :=
  match xs with
  | [] => 0
  | x :: rest => rest.foldl max x

/-- The filter `df[df["status"] == "success"]` of `analyze_report`
(src/analyze_result.py). -/
def successRows (rows : List ReportRow) : List ReportRow :=
  rows.filter (fun r => r.status == "success")

/-- Everything `analyze_report` (src/analyze_result.py) computes from the
successful rows: the overall stats, the component averages, the speech
detection counts, and the worst/best performer lists. -/
structure Summary where
  total : Nat
  avg_der : ℚ
  median_der : ℚ
  best_der : ℚ
  worst_der : ℚ
  avg_false_alarm : ℚ
  avg_missed_detection : ℚ
  avg_confusion : ℚ
  avg_missing_speech_pct : ℚ
  over_detecting : Nat
  under_detecting : Nat
  worst_performers : List ReportRow
  best_performers : List ReportRow
  deriving DecidableEq, Repr

/-- The statistics `analyze_report` derives from the success-filtered rows:
mean/median/min/max of `DER`, means of the three components and of
`missing_speech_pct`, the over- and under-detection counts (rows with negative
`missing_speech_pct` versus the rest), the worst performers
(`DER > 0.5`, sorted descending) and the best performers (`DER < 0.2`,
sorted ascending). -/
def mkSummary (success : List ReportRow) : Summary :=
  { total := success.length
    avg_der := listMean (success.map (fun r => r.DER))
    median_der := listMedian (success.map (fun r => r.DER))
    best_der := listMin (success.map (fun r => r.DER))
    worst_der := listMax (success.map (fun r => r.DER))
    avg_false_alarm := listMean (success.map (fun r => r.false_alarm))
    avg_missed_detection := listMean (success.map (fun r => r.missed_detection))
    avg_confusion := listMean (success.map (fun r => r.confusion))
    avg_missing_speech_pct := listMean (success.map (fun r => r.missing_speech_pct))
    over_detecting := (success.filter (fun r => r.missing_speech_pct < 0)).length
    under_detecting :=
      success.length - (success.filter (fun r => r.missing_speech_pct < 0)).length
    worst_performers :=
      (success.filter (fun r => r.DER > 1/2)).mergeSort (fun a b => b.DER ≤ a.DER)
    best_performers :=
      (success.filter (fun r => r.DER < 1/5)).mergeSort (fun a b => a.DER ≤ b.DER) }

/-- `analyze_report` (src/analyze_result.py): filter the report rows to the
successful ones; if none remain, print "No successful recordings!" and return
early (`none` here); otherwise produce the summary of the successful rows. -/
def analyze_report (rows : List ReportRow) : Option Summary :=
  if (successRows rows).length = 0 then none
  else some (mkSummary (successRows rows))

/-- The record `{"rec_id": ..., "DER": None, "status": "download_failed"}`
appended when a download fails (src/main.py). -/
def downloadFailedRecord (rid : String) : ResultRecord :=
  { rec_id := rid, DER := none, false_alarm := none, missed_detection := none,
    confusion := none, diarization_file := none, status := "download_failed",
    error := none }

/-- The record `{"rec_id": ..., "DER": None, "status": "failed", "error": str(e)}`
appended when the outer `try` of the batch loop catches an exception
(src/main.py). -/
def failedRecord (rid e : String) : ResultRecord :=
  { rec_id := rid, DER := none, false_alarm := none, missed_detection := none,
    confusion := none, diarization_file := none, status := "failed",
    error := some e }

/-- A concrete input row used to instantiate the batch-loop theorems. -/
def rowX : InputRow := ⟨"rec1", "http://a/rec1.wav", "http://a/rec1.json"⟩

/-- A concrete environment in which every step succeeds except the detailed
metric call, which raises, while the aggregate metric call returns 4. -/
def envOkFallback : PipelineEnv :=
  { downloadAudio := fun _ => true
    downloadTranscript := fun _ => true
    diarize := fun _ => Except.ok [(⟨0, 2⟩, "S1")]
    writeRTTM := fun _ _ => true
    readTranscript := fun _ => Except.ok [⟨0, 2, "A"⟩]
    derDetailed := fun _ _ => Except.error "detailed unsupported"
    derAggregate := fun _ _ => Except.ok 4 }

/-- A concrete environment in which the audio download fails. -/
def envDLFail : PipelineEnv :=
  { envOkFallback with downloadAudio := fun _ => false }

/-- A second concrete environment in which the audio download fails but the
diarization oracle differs, to exhibit that the diarization model is never
consulted after a failed download. -/
def envDLFail2 : PipelineEnv :=
  { envOkFallback with
    downloadAudio := fun _ => false
    diarize := fun _ => Except.error "model exploded" }

/-- A concrete environment in which diarization raises an exception whose
text is `"boom"`. -/
def envDiarErr : PipelineEnv :=
  { envOkFallback with diarize := fun _ => Except.error "boom" }

/-- A concrete environment in which diarization raises an exception whose
`str(e)` is the empty string (in Python, e.g. `raise RuntimeError()`). -/
def envDiarEmptyMsg : PipelineEnv :=
  { envOkFallback with diarize := fun _ => Except.error "" }

/-- A concrete successful report row. -/
def rowS : ReportRow := ⟨"r1", "success", 1, 0, 0, 0, 2⟩

/-- A concrete failed report row. -/
def rowF : ReportRow := ⟨"r2", "failed", 0, 0, 0, 0, 0⟩

/-- The batch loop is a map: `results` starts empty and each iteration appends
exactly the record of its row. -/
theorem processBatch_eq_map (env : PipelineEnv) (rows : List InputRow) :
    processBatch env rows = rows.map (processRow env) := by
  suffices h : ∀ acc : List ResultRecord,
      rows.foldl (fun results row => results ++ [processRow env row]) acc =
        acc ++ rows.map (processRow env) by
    simpa [processBatch] using h []
  induction rows with
  | nil => intro acc; simp
  | cons r rest ih =>
    intro acc
    simp only [List.foldl_cons, List.map_cons, ih]
    simp

/-- C1: the problem classifier is a priority cascade whose first rule wins:
whenever the overall error rate is strictly below 0.2 the classifier returns
GOOD, whatever the false-alarm, missed-detection and confusion components
are. -/
theorem C1_rule_one_short_circuits (r : ClassifierInput) (h : r.DER < 1/5) :
    identify_problem_type r = "GOOD" := by
  simp only [identify_problem_type]
  rw [if_pos h]

theorem C1_rule_one_short_circuits_witness :
    (1 : ℚ)/10 < 1/5 ∧
      identify_problem_type ⟨1/10, some (1/2), some 1, some 1⟩ = "GOOD" :=
  ⟨by norm_num, C1_rule_one_short_circuits ⟨1/10, some (1/2), some 1, some 1⟩ (by norm_num)⟩

/-- C8: the classifier threshold comparisons are strict.  For a record not
caught by rule 1 (overall error rate at least 0.2), a false-alarm rate of
exactly 0.3 never yields HIGH_FALSE_ALARM, while any false-alarm rate
strictly above 0.3 yields HIGH_FALSE_ALARM. -/
theorem C8_strict_false_alarm_boundary (r : ClassifierInput) (h : 1/5 ≤ r.DER) :
    (r.false_alarm = some (3/10) → identify_problem_type r ≠ "HIGH_FALSE_ALARM") ∧
    (∀ fa : ℚ, r.false_alarm = some fa → 3/10 < fa →
      identify_problem_type r = "HIGH_FALSE_ALARM") := by
  have hder : ¬ r.DER < 1/5 := not_lt.mpr h
  constructor
  · intro hfa
    simp only [identify_problem_type, hfa, Option.getD_some, if_neg hder]
    rw [if_neg (by norm_num : ¬ (3 : ℚ)/10 > 3/10)]
    split_ifs <;> simp
  · intro fa hfa hlt
    simp only [identify_problem_type, hfa, Option.getD_some, if_neg hder]
    rw [if_pos hlt]

theorem C8_strict_false_alarm_boundary_witness :
    identify_problem_type ⟨1/2, some (3/10), some 0, some 0⟩ ≠ "HIGH_FALSE_ALARM" ∧
    identify_problem_type ⟨1/2, some (30001/100000), some 0, some 0⟩ = "HIGH_FALSE_ALARM" :=
  ⟨(C8_strict_false_alarm_boundary ⟨1/2, some (3/10), some 0, some 0⟩ (by norm_num)).1 rfl,
   (C8_strict_false_alarm_boundary ⟨1/2, some (30001/100000), some 0, some 0⟩
      (by norm_num)).2 (30001/100000) rfl (by norm_num)⟩

/-- C9: when rules 1 through 4 do not fire (overall error rate at least 0.2,
false alarm at most 0.3, confusion at most 0.4, missed detection at most 0.3),
a strictly largest false-alarm component yields FALSE_ALARM_DOMINANT, a
strictly largest confusion component yields CONFUSION_DOMINANT, and otherwise
the classifier returns MIXED_ISSUES. -/
theorem C9_dominant_component_rules (der fa md conf : ℚ) (h1 : 1/5 ≤ der)
    (h2 : fa ≤ 3/10) (h3 : conf ≤ 2/5) (h4 : md ≤ 3/10) :
    (md < fa ∧ conf < fa →
      identify_problem_type ⟨der, some fa, some md, some conf⟩ = "FALSE_ALARM_DOMINANT") ∧
    (fa < conf ∧ md < conf →
      identify_problem_type ⟨der, some fa, some md, some conf⟩ = "CONFUSION_DOMINANT") ∧
    (¬ (md < fa ∧ conf < fa) → ¬ (fa < conf ∧ md < conf) →
      identify_problem_type ⟨der, some fa, some md, some conf⟩ = "MIXED_ISSUES") := by
  have hder : ¬ der < 1/5 := not_lt.mpr h1
  have hfa : ¬ fa > 3/10 := not_lt.mpr h2
  have hconf : ¬ conf > 2/5 := not_lt.mpr h3
  have hmd : ¬ md > 3/10 := not_lt.mpr h4
  refine ⟨fun h5 => ?_, fun h6 => ?_, fun h5 h6 => ?_⟩
  · simp only [identify_problem_type, Option.getD_some, if_neg hder, if_neg hfa,
      if_neg hconf, if_neg hmd]
    rw [if_pos ⟨h5.1, h5.2⟩]
  · have hnot5 : ¬ (md < fa ∧ conf < fa) := fun hc => lt_asymm h6.1 hc.2
    simp only [identify_problem_type, Option.getD_some, if_neg hder, if_neg hfa,
      if_neg hconf, if_neg hmd]
    rw [if_neg (by exact fun hc => hnot5 ⟨hc.1, hc.2⟩), if_pos ⟨h6.1, h6.2⟩]
  · simp only [identify_problem_type, Option.getD_some, if_neg hder, if_neg hfa,
      if_neg hconf, if_neg hmd]
    rw [if_neg (by exact fun hc => h5 ⟨hc.1, hc.2⟩),
      if_neg (by exact fun hc => h6 ⟨hc.1, hc.2⟩)]

theorem C9_dominant_component_rules_witness :
    identify_problem_type ⟨1, some (1/4), some (1/10), some (1/10)⟩ = "FALSE_ALARM_DOMINANT" ∧
    identify_problem_type ⟨1, some (1/10), some (1/10), some (1/4)⟩ = "CONFUSION_DOMINANT" ∧
    identify_problem_type ⟨1, some (1/4), some (1/10), some (1/4)⟩ = "MIXED_ISSUES" :=
  ⟨(C9_dominant_component_rules 1 (1/4) (1/10) (1/10) (by norm_num) (by norm_num)
      (by norm_num) (by norm_num)).1 ⟨by norm_num, by norm_num⟩,
   (C9_dominant_component_rules 1 (1/10) (1/10) (1/4) (by norm_num) (by norm_num)
      (by norm_num) (by norm_num)).2.1 ⟨by norm_num, by norm_num⟩,
   (C9_dominant_component_rules 1 (1/4) (1/10) (1/4) (by norm_num) (by norm_num)
      (by norm_num) (by norm_num)).2.2
      (fun hc => absurd hc.2 (by norm_num)) (fun hc => absurd hc.1 (by norm_num))⟩

/-- Assigning a valid segment that is not yet a key of the annotation appends
a new interval. -/
theorem annotationSet_of_not_mem (ann : List (Seg × String)) (seg : Seg)
    (label : String) (hvalid : seg.start < seg.stop)
    (hmem : seg ∉ ann.map Prod.fst) :
    annotationSet ann seg label = ann ++ [(seg, label)] := by
  unfold annotationSet
  rw [if_neg (not_le.mpr hvalid), if_neg hmem]

/-- Generalized loop invariant for `load_ground_truth`: running the loop from
an accumulator none of whose keys recurs among the remaining valid entries,
and whose remaining valid entries have pairwise distinct segments, appends
exactly the valid entries in order. -/
theorem load_foldl_appends (data : List TranscriptEntry) :
    ∀ ann : List (Seg × String),
      (data.filter (fun e => e.end_time > e.start_time)).Pairwise
        (fun a b => entrySeg a ≠ entrySeg b) →
      (∀ e ∈ data.filter (fun e => e.end_time > e.start_time),
        entrySeg e ∉ ann.map Prod.fst) →
      data.foldl loadStep ann =
        ann ++ (data.filter (fun e => e.end_time > e.start_time)).map
          (fun e => (entrySeg e, e.speaker_id)) := by
  induction data with
  | nil => intro ann _ _; simp
  | cons e rest ih =>
    intro ann hpw hnotin
    by_cases hv : e.end_time > e.start_time
    · have hfil :
          (e :: rest).filter (fun e => e.end_time > e.start_time) =
            e :: rest.filter (fun e => e.end_time > e.start_time) := by
        simp [List.filter_cons, hv]
      rw [hfil] at hpw hnotin
      have hstep : loadStep ann e = ann ++ [(entrySeg e, e.speaker_id)] := by
        unfold loadStep
        rw [if_pos hv]
        exact annotationSet_of_not_mem ann (entrySeg e) e.speaker_id hv
          (hnotin e (List.mem_cons_self e _))
      have hpw' := (List.pairwise_cons.mp hpw)
      have hrec := ih (ann ++ [(entrySeg e, e.speaker_id)]) hpw'.2 (by
        intro e' he'
        rw [List.map_append, List.mem_append]
        rintro (hin | hin)
        · exact hnotin e' (List.mem_cons_of_mem e he') hin
        · simp only [List.map_cons, List.map_nil, List.mem_singleton] at hin
          exact hpw'.1 e' he' hin.symm)
      rw [List.foldl_cons, hstep, hrec, hfil]
      simp
    · have hfil :
          (e :: rest).filter (fun e => e.end_time > e.start_time) =
            rest.filter (fun e => e.end_time > e.start_time) := by
        simp [List.filter_cons, hv]
      rw [hfil] at hpw hnotin
      have hstep : loadStep ann e = ann := by
        unfold loadStep
        rw [if_neg hv]
      rw [List.foldl_cons, hstep, ih ann hpw hnotin, hfil]

/-- C2 counterexample: two transcript entries with the same span but different
speakers are both valid (end > start), yet the loaded annotation keeps only
the second one — the earlier entry's speaker label is not preserved, because
the assignment `annotation[Segment(start, end)] = speaker` overwrites the
label stored under an equal segment. -/
theorem C2_duplicate_span_overwrites :
    load_ground_truth [⟨0, 5, "A"⟩, ⟨0, 5, "B"⟩] = [(⟨0, 5⟩, "B")] ∧
    (⟨⟨0, 5⟩, "A"⟩ : Seg × String) ∉ load_ground_truth [⟨0, 5, "A"⟩, ⟨0, 5, "B"⟩] := by
  decide

/-- C2 amended: the loader excludes exactly the entries whose end time is at
most their start time; provided the surviving entries have pairwise distinct
(start, end) spans, every surviving entry becomes an annotation interval with
its start, end and speaker label preserved intact, in order.  (When two
surviving entries share an identical span, the later one's label overwrites
the earlier one's.) -/
theorem C2_loader_drops_invalid_keeps_valid (data : List TranscriptEntry)
    (hpw : (data.filter (fun e => e.end_time > e.start_time)).Pairwise
      (fun a b => entrySeg a ≠ entrySeg b)) :
    load_ground_truth data =
      (data.filter (fun e => e.end_time > e.start_time)).map
        (fun e => (entrySeg e, e.speaker_id)) := by
  have h := load_foldl_appends data [] hpw (by simp)
  simpa [load_ground_truth] using h

theorem C2_loader_drops_invalid_keeps_valid_witness :
    load_ground_truth [⟨0, 5, "A"⟩, ⟨5, 5, "B"⟩, ⟨3, 1, "C"⟩] = [(⟨0, 5⟩, "A")] :=
  (C2_loader_drops_invalid_keeps_valid [⟨0, 5, "A"⟩, ⟨5, 5, "B"⟩, ⟨3, 1, "C"⟩]
    (by decide)).trans (by decide)

/-- The timeline duration of an annotation all of whose segments are valid
(start strictly before end, the pyannote `Segment` invariant enforced by
`Annotation.__setitem__`) is nonnegative. -/
theorem timelineDuration_nonneg (ann : List (Seg × String))
    (h : ∀ s ∈ ann.map Prod.fst, s.start < s.stop) :
    0 ≤ timelineDuration ann := by
  unfold timelineDuration
  apply List.sum_nonneg
  intro x hx
  simp only [List.mem_map] at hx
  obtain ⟨s, hs, rfl⟩ := hx
  have hmem : s ∈ ann.map Prod.fst := List.mem_dedup.mp hs
  linarith [h s hmem]

/-- C4: `analyze_diarization` returns `missing_speech_pct` equal to exactly 0
when the reference speech duration is 0, whatever the hypothesis duration is;
otherwise it returns (ref - hyp) / ref * 100, which is negative whenever the
hypothesis duration exceeds the reference duration.  The reference annotation
is assumed to consist of valid segments (start strictly before end), the
invariant every pyannote annotation satisfies. -/
theorem C4_missing_speech_pct_guard (audio_duration : ℚ)
    (reference hypothesis : List (Seg × String))
    (href : ∀ s ∈ reference.map Prod.fst, s.start < s.stop) :
    (timelineDuration reference = 0 →
      (analyze_diarization audio_duration reference hypothesis).missing_speech_pct = 0) ∧
    (timelineDuration reference ≠ 0 →
      (analyze_diarization audio_duration reference hypothesis).missing_speech_pct =
        (timelineDuration reference - timelineDuration hypothesis) /
          timelineDuration reference * 100) ∧
    (timelineDuration reference ≠ 0 →
      timelineDuration reference < timelineDuration hypothesis →
      (analyze_diarization audio_duration reference hypothesis).missing_speech_pct < 0) := by
  have hnonneg := timelineDuration_nonneg reference href
  refine ⟨fun h0 => ?_, fun hne => ?_, fun hne hlt => ?_⟩
  · simp [analyze_diarization, h0]
  · have hpos : 0 < timelineDuration reference := lt_of_le_of_ne hnonneg (Ne.symm hne)
    simp [analyze_diarization, hpos]
  · have hpos : 0 < timelineDuration reference := lt_of_le_of_ne hnonneg (Ne.symm hne)
    simp only [analyze_diarization, if_pos hpos]
    apply mul_neg_of_neg_of_pos
    · exact div_neg_of_neg_of_pos (by linarith) hpos
    · norm_num

theorem C4_missing_speech_pct_guard_witness :
    (analyze_diarization 10 [] [(⟨0, 7⟩, "B")]).missing_speech_pct = 0 ∧
    (analyze_diarization 10 [(⟨0, 5⟩, "A")] [(⟨0, 7⟩, "B")]).missing_speech_pct < 0 :=
  ⟨(C4_missing_speech_pct_guard 10 [] [(⟨0, 7⟩, "B")] (by simp)).1
      (by simp [timelineDuration]),
   (C4_missing_speech_pct_guard 10 [(⟨0, 5⟩, "A")] [(⟨0, 7⟩, "B")]
      (by decide)).2.2
      (by norm_num [timelineDuration])
      (by norm_num [timelineDuration])⟩

/-- C3: when the detailed DER metric call raises and the aggregate call
succeeds, the recording is recorded with the aggregate overall error rate,
false-alarm, missed-detection and confusion components exactly 0, and status
`success` — the fallback is a degraded success, not an error. -/
theorem C3_metric_fallback_is_success (env : PipelineEnv) (row : InputRow)
    (hyp : List (Seg × String)) (data : List TranscriptEntry) (eD : String)
    (d : ℚ) (hA : env.downloadAudio row = true)
    (hT : env.downloadTranscript row = true)
    (hD : env.diarize row = Except.ok hyp)
    (hR : env.readTranscript row = Except.ok data)
    (hdet : env.derDetailed (load_ground_truth data) hyp = Except.error eD)
    (hagg : env.derAggregate (load_ground_truth data) hyp = Except.ok d) :
    processRow env row =
      { rec_id := row.rec_id, DER := some d, false_alarm := some 0,
        missed_detection := some 0, confusion := some 0,
        diarization_file :=
          if env.writeRTTM row hyp then
            some ("data/diarization/" ++ row.rec_id ++ ".rttm")
          else none,
        status := "success", error := none } := by
  simp [processRow, hA, hT, hD, hR, hdet, hagg]

theorem C3_metric_fallback_is_success_witness :
    processRow envOkFallback rowX =
      { rec_id := "rec1", DER := some 4, false_alarm := some 0,
        missed_detection := some 0, confusion := some 0,
        diarization_file := some "data/diarization/rec1.rttm",
        status := "success", error := none } :=
  (C3_metric_fallback_is_success envOkFallback rowX [(⟨0, 2⟩, "S1")]
    [⟨0, 2, "A"⟩] "detailed unsupported" 4 rfl rfl rfl rfl rfl rfl).trans
    (by decide)

/-- C5: when the audio download of a row fails, the batch records the
download_failed record for that row — a record that does not depend on the
diarization oracle at all, so the model is never invoked — and the rows
before and after it are still processed in order. -/
theorem C5_download_failure_skips_model (env : PipelineEnv) (row : InputRow)
    (pre post : List InputRow) (hA : env.downloadAudio row = false) :
    processRow env row = downloadFailedRecord row.rec_id ∧
    processBatch env (pre ++ row :: post) =
      processBatch env pre ++
        downloadFailedRecord row.rec_id :: processBatch env post ∧
    ∀ env2 : PipelineEnv, env2.downloadAudio row = false →
      processRow env2 row = processRow env row := by
  have h1 : processRow env row = downloadFailedRecord row.rec_id := by
    simp [processRow, hA, downloadFailedRecord]
  refine ⟨h1, ?_, ?_⟩
  · simp [processBatch_eq_map, h1]
  · intro env2 h2
    rw [h1]
    simp [processRow, h2, downloadFailedRecord]

theorem C5_download_failure_skips_model_witness :
    processRow envDLFail rowX = downloadFailedRecord "rec1" ∧
    processBatch envDLFail ([] ++ rowX :: []) =
      processBatch envDLFail [] ++
        downloadFailedRecord "rec1" :: processBatch envDLFail [] ∧
    processRow envDLFail2 rowX = processRow envDLFail rowX :=
  ⟨(C5_download_failure_skips_model envDLFail rowX [] [] rfl).1,
   (C5_download_failure_skips_model envDLFail rowX [] [] rfl).2.1,
   (C5_download_failure_skips_model envDLFail rowX [] [] rfl).2.2 envDLFail2 rfl⟩

/-- C6 counterexample: a diarization call can raise an exception whose text
is empty (in Python, `str(e)` of an exception constructed without arguments
is the empty string); the batch then records status `failed` with an error
message that is the empty string, so the recorded message is not always
non-empty. -/
theorem C6_empty_error_message :
    (processRow envDiarEmptyMsg rowX).status = "failed" ∧
    (processRow envDiarEmptyMsg rowX).error = some "" := by
  decide

/-- C6 amended: when the diarization call — or a subsequent processing step:
the reference load, or the metric computation with both the detailed and the
aggregate call raising — raises an exception, the batch records the failed
record carrying the exception text as its error message (so the message is
non-empty exactly when the exception text is), and the rows before and after
the failing one are still processed in order. -/
theorem C6_processing_failure_isolated (env : PipelineEnv) (row : InputRow)
    (e : String) (pre post : List InputRow)
    (hA : env.downloadAudio row = true)
    (hT : env.downloadTranscript row = true) :
    (env.diarize row = Except.error e →
      processRow env row = failedRecord row.rec_id e) ∧
    (∀ hyp, env.diarize row = Except.ok hyp →
      env.readTranscript row = Except.error e →
      processRow env row = failedRecord row.rec_id e) ∧
    (∀ hyp data eD, env.diarize row = Except.ok hyp →
      env.readTranscript row = Except.ok data →
      env.derDetailed (load_ground_truth data) hyp = Except.error eD →
      env.derAggregate (load_ground_truth data) hyp = Except.error e →
      processRow env row = failedRecord row.rec_id e) ∧
    processBatch env (pre ++ row :: post) =
      processBatch env pre ++ processRow env row :: processBatch env post := by
  refine ⟨fun hD => ?_, fun hyp hD hR => ?_, fun hyp data eD hD hR hdet hagg => ?_, ?_⟩
  · simp [processRow, hA, hT, hD, failedRecord]
  · simp [processRow, hA, hT, hD, hR, failedRecord]
  · simp [processRow, hA, hT, hD, hR, hdet, hagg, failedRecord]
  · simp [processBatch_eq_map]

theorem C6_processing_failure_isolated_witness :
    processRow envDiarErr rowX = failedRecord "rec1" "boom" ∧
    processBatch envDiarErr ([rowX] ++ rowX :: [rowX]) =
      processBatch envDiarErr [rowX] ++
        processRow envDiarErr rowX :: processBatch envDiarErr [rowX] :=
  ⟨(C6_processing_failure_isolated envDiarErr rowX "boom" [] [] rfl rfl).1 rfl,
   (C6_processing_failure_isolated envDiarErr rowX "boom" [rowX] [rowX] rfl rfl).2.2.2⟩

/-- C7: every summary statistic of `analyze_report` is computed over the
success-filtered rows only: inserting a row whose status is not `success`
anywhere in the report leaves the whole summary — mean/median/min/max DER,
the component and missing-speech averages, the over- and under-detection
counts, and the performer lists — unchanged. -/
theorem C7_summary_ignores_failed_rows (pre post : List ReportRow)
    (r : ReportRow) (h : r.status ≠ "success") :
    analyze_report (pre ++ r :: post) = analyze_report (pre ++ post) := by
  have hs : successRows (pre ++ r :: post) = successRows (pre ++ post) := by
    simp [successRows, List.filter_append, List.filter_cons, h]
  simp [analyze_report, hs]

theorem C7_summary_ignores_failed_rows_witness :
    analyze_report ([rowS] ++ rowF :: []) = analyze_report ([rowS] ++ []) :=
  C7_summary_ignores_failed_rows [rowS] [] rowF (by decide)

/-- Every record produced by one iteration of the batch loop has one of the
three statuses, carries all four error-rate fields when it is a success, and
has no DER when it is not. -/
theorem processRow_record_invariants (env : PipelineEnv) (row : InputRow) :
    ((processRow env row).status = "success" ∨
      (processRow env row).status = "download_failed" ∨
      (processRow env row).status = "failed") ∧
    ((processRow env row).status = "success" →
      (processRow env row).DER.isSome ∧
      (processRow env row).false_alarm.isSome ∧
      (processRow env row).missed_detection.isSome ∧
      (processRow env row).confusion.isSome) ∧
    ((processRow env row).status ≠ "success" →
      (processRow env row).DER = none) := by
  by_cases hA : env.downloadAudio row
  · by_cases hT : env.downloadTranscript row
    · rcases hD : env.diarize row with e | hyp
      · refine ⟨?_, ?_, ?_⟩ <;> simp [processRow, hA, hT, hD]
      · rcases hR : env.readTranscript row with e | data
        · refine ⟨?_, ?_, ?_⟩ <;> simp [processRow, hA, hT, hD, hR]
        · rcases hdet : env.derDetailed (load_ground_truth data) hyp with eD | m
          · rcases hagg : env.derAggregate (load_ground_truth data) hyp with e | d
            · refine ⟨?_, ?_, ?_⟩ <;> simp [processRow, hA, hT, hD, hR, hdet, hagg]
            · refine ⟨?_, ?_, ?_⟩ <;> simp [processRow, hA, hT, hD, hR, hdet, hagg]
          · refine ⟨?_, ?_, ?_⟩ <;> simp [processRow, hA, hT, hD, hR, hdet]
    · refine ⟨?_, ?_, ?_⟩ <;> simp [processRow, hA, hT]
  · refine ⟨?_, ?_, ?_⟩ <;> simp [processRow, hA]

/-- C10: after the batch loop completes, the results collection holds exactly
one record per input row; every record's status is success, download_failed
or failed; every success record carries all four error-rate fields; every
record with a failure status has no DER. -/
theorem C10_batch_result_invariants (env : PipelineEnv) (rows : List InputRow) :
    (processBatch env rows).length = rows.length ∧
    ∀ r ∈ processBatch env rows,
      (r.status = "success" ∨ r.status = "download_failed" ∨ r.status = "failed") ∧
      (r.status = "success" →
        r.DER.isSome ∧ r.false_alarm.isSome ∧
        r.missed_detection.isSome ∧ r.confusion.isSome) ∧
      (r.status ≠ "success" → r.DER = none) := by
  rw [processBatch_eq_map]
  refine ⟨List.length_map _ _, ?_⟩
  intro r hr
  rw [List.mem_map] at hr
  obtain ⟨row, _, rfl⟩ := hr
  exact processRow_record_invariants env row

theorem C10_batch_result_invariants_witness :
    (processBatch envOkFallback [rowX]).length = [rowX].length ∧
    (((processRow envOkFallback rowX).status = "success" ∨
        (processRow envOkFallback rowX).status = "download_failed" ∨
        (processRow envOkFallback rowX).status = "failed") ∧
      ((processRow envOkFallback rowX).status = "success" →
        (processRow envOkFallback rowX).DER.isSome ∧
        (processRow envOkFallback rowX).false_alarm.isSome ∧
        (processRow envOkFallback rowX).missed_detection.isSome ∧
        (processRow envOkFallback rowX).confusion.isSome) ∧
      ((processRow envOkFallback rowX).status ≠ "success" →
        (processRow envOkFallback rowX).DER = none)) :=
  ⟨(C10_batch_result_invariants envOkFallback [rowX]).1,
   (C10_batch_result_invariants envOkFallback [rowX]).2
     (processRow envOkFallback rowX) (by decide)⟩
